import Mathlib

/-!
# Verification of the CUDA device-selection helpers

Shallow embedding of the two headers
`helper_cuda_drvapi.h` and `cudaGLHelper.h` of the matmul sample.

The headers are glue over the CUDA driver / runtime API.  We model the
driver as an environment that fixes, once and for all, the list of
enumerated devices (with their queried attributes) and the status code
each API entry point returns.  Every helper becomes a pure function from
that environment (plus the parsed command line) to an *outcome* — either
the process exits with some code, or the function returns a value — paired
with the list of diagnostic lines it printed (stdout and stderr merged).
-/

set_option autoImplicit false
set_option linter.unnecessarySeqFocus false

namespace MatMul

/-- One enumerated CUDA device together with the attributes the helpers
query: compute capability `major.minor` (`cuDeviceComputeCapability` /
`cudaDeviceProp.major`), `CU_DEVICE_ATTRIBUTE_MULTIPROCESSOR_COUNT`,
`CU_DEVICE_ATTRIBUTE_CLOCK_RATE`, and the device name
(`cuDeviceGetName` / `cudaDeviceProp.name`). -/
structure Device where
  major : Int
  minor : Int
  multiProcessorCount : Int
  clockRate : Int
  name : String
  deriving DecidableEq, Repr

/-- Placeholder device; never the value actually read on in-range paths. -/
def dummyDevice : Device := ⟨0, 0, 0, 0, ""⟩

/-- The device record the driver hands back for ordinal `i`. -/
def deviceAt (ds : List Device) (i : Nat) : Device := ds.getD i dummyDevice

/-- Outcome of running one of the helpers: the process terminated via
`exit(code)`, or the function returned a value to its caller. -/
inductive ProcOut (α : Type) where
  | exit (code : Int)
  | ret (v : α)
  deriving DecidableEq, Repr

/-- Environment for the driver-API helpers (`helper_cuda_drvapi.h`):
the enumerated devices and the `CUresult` each driver call returns
(`0` is `CUDA_SUCCESS`).  Per-device attribute queries
(`cuDeviceComputeCapability`, `cuDeviceGetAttribute`, `cuDeviceGetName`)
are modelled as succeeding with the environment's per-device data. -/
structure DrvEnv where
  devices : List Device
  cuInitRes : Int
  cuDeviceGetCountRes : Int
  cuDeviceGetRes : Int
  deriving DecidableEq, Repr

/-- Environment for the runtime-API helpers (`cudaGLHelper.h`). -/
structure RtEnv where
  devices : List Device
  getDeviceCountRes : Int
  getDevicePropertiesRes : Int
  glSetGLDeviceRes : Int
  deriving DecidableEq, Repr

/-- Result of the parsed command line, as the helpers consume it through
`checkCmdLineFlag` / `getCmdLineArgumentInt`.

Modelled from the spec: the generic flag-parsing helper
(`helper_string.h`, not present under `src/`) consumes the flags
`device=<N>` and `quiet`; `deviceFlag` is `checkCmdLineFlag(…, "device")`,
`deviceArg` is `getCmdLineArgumentInt(…, "device=")` (0 when the flag is
absent), `quietFlag` is `checkCmdLineFlag(…, "quiet")`. -/
structure CmdLine where
  deviceFlag : Bool
  deviceArg : Int
  quietFlag : Bool
  deriving DecidableEq, Repr

/-- Modelled from the spec: `getCudaDrvErrorString`
(`drvapi_error_string.h`, not present under `src/`) maps a native status
code to a human-readable string. -/
def getCudaDrvErrorString (err : Int) : String :=
  if err = 0 then "CUDA_SUCCESS" else "CUDA_ERROR " ++ toString err

/-- The diagnostic line `__checkCudaErrors` prints on failure, with file
and line context. -/
def checkCudaErrorsMsg (err : Int) (file : String) (line : Int) : String :=
  "checkCudaErrors() Driver API error = " ++ toString err ++ " \"" ++
    getCudaDrvErrorString err ++ "\" from file <" ++ file ++ ">, line " ++
    toString line ++ "."

/-- `__checkCudaErrors(err, file, line)`: if `err` is not `CUDA_SUCCESS`,
print the error string with file/line context and `exit(-1)`; otherwise
fall through. -/
def __checkCudaErrors (err : Int) (file : String) (line : Int) :
    ProcOut Unit × List String :=
  if err = 0 then (ProcOut.ret (), [])
  else (ProcOut.exit (-1), [checkCudaErrorsMsg err file line])

/-- The error line printed by a `checkCudaErrors(call)` use inside the
helpers (`__FILE__`/`__LINE__` context elided to the error itself). -/
def drvErrMsg (err : Int) : String :=
  "checkCudaErrors() Driver API error = " ++ toString err ++ " \"" ++
    getCudaDrvErrorString err ++ "\""

/-- `gpuDeviceInitDRV(ARGC, ARGV)` from `helper_cuda_drvapi.h`: run
`cuInit`, enumerate devices, read the `device=` argument, clamp negative
values to 0, reject out-of-range values by returning the negated index,
otherwise acquire the device, print the `Using CUDA Device` line unless
`quiet`, and return the index. -/
def gpuDeviceInitDRV (env : DrvEnv) (cmd : CmdLine) : ProcOut Int × List String :=
  -- CUresult err = cuInit(0); if (CUDA_SUCCESS == err) checkCudaErrors(cuDeviceGetCount(&deviceCount));
  if env.cuInitRes = 0 ∧ env.cuDeviceGetCountRes ≠ 0 then
    (ProcOut.exit (-1), [drvErrMsg env.cuDeviceGetCountRes])
  else
    -- deviceCount keeps its initial 0 when cuInit failed
    let deviceCount : Int := if env.cuInitRes = 0 then env.devices.length else 0
    if deviceCount = 0 then
      (ProcOut.exit (-1), ["cudaDeviceInit error: no devices supporting CUDA"])
    else
      let dev : Int := if cmd.deviceArg < 0 then 0 else cmd.deviceArg
      if dev > deviceCount - 1 then
        (ProcOut.ret (-dev),
          ["",
           ">> " ++ toString deviceCount ++ " CUDA capable GPU device(s) detected. <<",
           ">> cudaDeviceInit (-device=" ++ toString dev ++ ") is not a valid GPU device. <<",
           ""])
      else if env.cuDeviceGetRes ≠ 0 then
        (ProcOut.exit (-1), [drvErrMsg env.cuDeviceGetRes])
      else
        let name := (deviceAt env.devices dev.toNat).name
        if cmd.quietFlag then (ProcOut.ret dev, [])
        else
          (ProcOut.ret dev,
            ["gpuDeviceInitDRV() Using CUDA Device [" ++ toString dev ++ "]: " ++ name])

/-- Modelled from the spec: `_ConvertSMVer2Cores` (in the SDK headers, not
present under `src/`) weights a compute capability by GPU architecture
generation, giving the number of cores per multiprocessor (the 2012-era
SDK table: SM 1.x → 8, SM 2.0 → 32, SM 2.1 → 48, SM 3.x → 192, with the
last table entry as default). -/
def _ConvertSMVer2Cores (major minor : Int) : Int :=
  if major = 1 then 8
  else if major = 2 ∧ minor = 0 then 32
  else if major = 2 ∧ minor = 1 then 48
  else if major = 3 then 192
  else 192

/-- `sm_per_multiproc` as computed per device in `getMaxGflopsDeviceIdDRV`:
1 for the 9999.9999 (no-CUDA) capability, else the architecture weight. -/
def smPerMultiproc (d : Device) : Int :=
  if d.major = 9999 ∧ d.minor = 9999 then 1 else _ConvertSMVer2Cores d.major d.minor

/-- `compute_perf = multiProcessorCount * sm_per_multiproc * clockRate`. -/
def computePerf (d : Device) : Int :=
  d.multiProcessorCount * smPerMultiproc d * d.clockRate

/-- One iteration of the first loop of `getMaxGflopsDeviceIdDRV`:
`best_SM_arch = MAX(best_SM_arch, major)` for majors strictly between 0
and 9999. -/
def archStep (b : Int) (d : Device) : Int :=
  if 0 < d.major ∧ d.major < 9999 then max b d.major else b

/-- First loop of `getMaxGflopsDeviceIdDRV`: the best SM major
architecture over all devices. -/
def bestSMArch (ds : List Device) : Int :=
  ds.foldl archStep 0

/-- One iteration of the second loop of `getMaxGflopsDeviceIdDRV` on the
state `(max_compute_perf, max_perf_device)`: device `d` at index `i`
takes the maximum only if its `compute_perf` strictly exceeds the current
maximum and, when `best_SM_arch > 2`, its major equals `best_SM_arch`. -/
def gflopsStep (b : Int) (d : Device) (i : Nat) (st : Int × Nat) : Int × Nat :=
  if computePerf d > st.1 then
    if 2 < b then (if d.major = b then (computePerf d, i) else st)
    else (computePerf d, i)
  else st

/-- Second loop of `getMaxGflopsDeviceIdDRV`: walk the devices from index
`i` carrying `(max_compute_perf, max_perf_device)`. -/
def gflopsLoop (b : Int) : List Device → Nat → Int × Nat → Int × Nat
  | [], _, st => st
  | d :: ds, i, st => gflopsLoop b ds (i + 1) (gflopsStep b d i st)

/-- A device is eligible to take the maximum in the second loop: when
`best_SM_arch > 2` only devices whose major equals it are considered. -/
def elig (b : Int) (d : Device) : Prop := 2 < b → d.major = b

instance (b : Int) (d : Device) : Decidable (elig b d) := by
  unfold elig; infer_instance

/-- `getMaxGflopsDeviceIdDRV()` from `helper_cuda_drvapi.h`: the result of
`cuInit(0)` is ignored by the source; `cuDeviceGetCount` is checked; then
the two loops run and `max_perf_device` (initially 0) is returned. -/
def getMaxGflopsDeviceIdDRV (env : DrvEnv) : ProcOut Int × List String :=
  if env.cuDeviceGetCountRes ≠ 0 then
    (ProcOut.exit (-1), [drvErrMsg env.cuDeviceGetCountRes])
  else
    let b := bestSMArch env.devices
    (ProcOut.ret ((gflopsLoop b env.devices 0 (0, 0)).2 : Int), [])

/-- `findCudaDeviceDRV(argc, argv, p_devID)` from `helper_cuda_drvapi.h`.
`pDev` models whether `p_devID` is non-null; the returned pair is the
`CUdevice` handle (acquiring ordinal `i` yields handle `i` in the model)
and the value stored through `p_devID`.  When the unchecked final
`cuDeviceGet` fails the source returns an uninitialized handle; modelled
as 0. -/
def findCudaDeviceDRV (env : DrvEnv) (cmd : CmdLine) (pDev : Bool) :
    ProcOut (Int × Option Int) × List String :=
  if cmd.deviceFlag then
    match gpuDeviceInitDRV env cmd with
    | (ProcOut.exit c, out) => (ProcOut.exit c, out)
    | (ProcOut.ret devID, out) =>
        if devID < 0 then (ProcOut.exit 0, out ++ ["exiting..."])
        else
          let cuDevice := if env.cuDeviceGetRes = 0 then devID else 0
          (ProcOut.ret (cuDevice, if pDev then some devID else none), out)
  else
    match getMaxGflopsDeviceIdDRV env with
    | (ProcOut.exit c, out) => (ProcOut.exit c, out)
    | (ProcOut.ret devID, out) =>
        if env.cuDeviceGetRes ≠ 0 then
          (ProcOut.exit (-1), out ++ [drvErrMsg env.cuDeviceGetRes])
        else
          let name := (deviceAt env.devices devID.toNat).name
          (ProcOut.ret (devID, if pDev then some devID else none),
            out ++ ["> Using CUDA Device [" ++ toString devID ++ "]: " ++ name])

/-- Result of running a `cudaGLHelper.h` helper: the outcome, the printed
lines, and the trace of device indices passed to `cudaGLSetGLDevice`. -/
structure GLRun where
  outcome : ProcOut Int
  output : List String
  glCalls : List Int
  deriving DecidableEq, Repr

/-- `gpuGLDeviceInit(ARGC, ARGV)` from `cudaGLHelper.h`: enumerate via the
runtime API, read and clamp the `device=` argument, reject out-of-range
values by returning the negated index, query the device properties, exit
on a pre-CUDA device (`major < 1`), print the `Using device` line unless
`quiet`, bind the GL device, and return the index. -/
def gpuGLDeviceInit (env : RtEnv) (cmd : CmdLine) : GLRun :=
  if env.getDeviceCountRes ≠ 0 then
    ⟨ProcOut.exit (-1), [drvErrMsg env.getDeviceCountRes], []⟩
  else if env.devices.length = 0 then
    ⟨ProcOut.exit (-1), ["CUDA error: no devices supporting CUDA."], []⟩
  else
    let dev : Int := if cmd.deviceArg < 0 then 0 else cmd.deviceArg
    if dev > (env.devices.length : Int) - 1 then
      ⟨ProcOut.ret (-dev),
        ["",
         ">> " ++ toString (env.devices.length : Int) ++ " CUDA capable GPU device(s) detected. <<",
         ">> gpuGLDeviceInit (-device=" ++ toString dev ++ ") is not a valid GPU device. <<",
         ""], []⟩
    else if env.getDevicePropertiesRes ≠ 0 then
      ⟨ProcOut.exit (-1), [drvErrMsg env.getDevicePropertiesRes], []⟩
    else
      let prop := deviceAt env.devices dev.toNat
      if prop.major < 1 then
        ⟨ProcOut.exit (-1), ["Error: device does not support CUDA."], []⟩
      else
        let diag : List String :=
          if cmd.quietFlag then []
          else ["Using device " ++ toString dev ++ ": " ++ prop.name]
        if env.glSetGLDeviceRes ≠ 0 then
          ⟨ProcOut.exit (-1), diag ++ [drvErrMsg env.glSetGLDeviceRes], [dev]⟩
        else ⟨ProcOut.ret dev, diag, [dev]⟩

/-- Modelled from the spec: `gpuGetMaxGflopsDeviceId` (the SDK's runtime
counterpart of the best-performance heuristic, not present under `src/`)
scores every device by the approximate throughput metric weighted by
architecture generation and picks the maximum. -/
def gpuGetMaxGflopsDeviceId (ds : List Device) : Nat :=
  (gflopsLoop (bestSMArch ds) ds 0 (0, 0)).2

/-- `findCudaGLDevice(argc, argv)` from `cudaGLHelper.h`: with the
`device` flag delegate to `gpuGLDeviceInit` and `exit(0)` on a negative
result; otherwise pick the best-performance device and bind it (the
`cudaGLSetGLDevice` result is not checked there). -/
def findCudaGLDevice (env : RtEnv) (cmd : CmdLine) : GLRun :=
  if cmd.deviceFlag then
    let r := gpuGLDeviceInit env cmd
    match r.outcome with
    | ProcOut.exit c => ⟨ProcOut.exit c, r.output, r.glCalls⟩
    | ProcOut.ret devID =>
        if devID < 0 then
          ⟨ProcOut.exit 0, r.output ++ ["no CUDA capable devices found, exiting..."], r.glCalls⟩
        else ⟨ProcOut.ret devID, r.output, r.glCalls⟩
  else
    let devID : Int := gpuGetMaxGflopsDeviceId env.devices
    ⟨ProcOut.ret devID, [], [devID]⟩

/-! ## Lemmas about the best-performance loop -/

theorem gflopsStep_cases (b : Int) (d : Device) (i : Nat) (st : Int × Nat) :
    gflopsStep b d i st = st ∨
      (gflopsStep b d i st = (computePerf d, i) ∧ st.1 < computePerf d ∧ elig b d) := by
  unfold gflopsStep elig
  split
  · rename_i hperf
    split
    · rename_i hb
      split
      · rename_i hmaj
        exact Or.inr ⟨rfl, hperf, fun _ => hmaj⟩
      · exact Or.inl rfl
    · rename_i hb
      exact Or.inr ⟨rfl, hperf, fun h => absurd h hb⟩
  · exact Or.inl rfl

theorem gflopsStep_fst_le (b : Int) (d : Device) (i : Nat) (st : Int × Nat) :
    st.1 ≤ (gflopsStep b d i st).1 := by
  rcases gflopsStep_cases b d i st with h | ⟨h, hlt, _⟩
  · rw [h]
  · rw [h]; exact le_of_lt hlt

theorem gflopsStep_le_of_elig (b : Int) (d : Device) (i : Nat) (st : Int × Nat)
    (he : elig b d) : computePerf d ≤ (gflopsStep b d i st).1 := by
  unfold gflopsStep
  split
  · rename_i hperf
    split
    · rename_i hb
      rw [if_pos (he hb)]
    · exact le_refl _
  · rename_i hperf
    exact le_of_not_lt hperf

theorem gflopsLoop_fst_le (b : Int) :
    ∀ (ds : List Device) (i : Nat) (st : Int × Nat), st.1 ≤ (gflopsLoop b ds i st).1
  | [], _, _ => le_refl _
  | d :: ds, i, st =>
      le_trans (gflopsStep_fst_le b d i st) (gflopsLoop_fst_le b ds (i + 1) _)

theorem gflopsLoop_le_of_elig (b : Int) :
    ∀ (ds : List Device) (i : Nat) (st : Int × Nat) (k : Nat) (h : k < ds.length),
      elig b (ds.get ⟨k, h⟩) → computePerf (ds.get ⟨k, h⟩) ≤ (gflopsLoop b ds i st).1
  | d :: ds, i, st, 0, _, he =>
      le_trans (gflopsStep_le_of_elig b d i st he) (gflopsLoop_fst_le b ds (i + 1) _)
  | d :: ds, i, st, k + 1, h, he =>
      gflopsLoop_le_of_elig b ds (i + 1) (gflopsStep b d i st) k
        (Nat.lt_of_succ_lt_succ h) he

theorem gflopsLoop_shape (b : Int) :
    ∀ (ds : List Device) (i : Nat) (st : Int × Nat),
      gflopsLoop b ds i st = st ∨
        ∃ k, ∃ h : k < ds.length,
          (gflopsLoop b ds i st).2 = i + k ∧
          (gflopsLoop b ds i st).1 = computePerf (ds.get ⟨k, h⟩) ∧
          elig b (ds.get ⟨k, h⟩) ∧ st.1 < (gflopsLoop b ds i st).1
  | [], _, _ => Or.inl rfl
  | d :: ds, i, st => by
      have hrec := gflopsLoop_shape b ds (i + 1) (gflopsStep b d i st)
      have hloop : gflopsLoop b (d :: ds) i st = gflopsLoop b ds (i + 1) (gflopsStep b d i st) := rfl
      rcases hrec with heq | ⟨k, hk, h2, h1, he, hlt⟩
      · rcases gflopsStep_cases b d i st with hst | ⟨hst, hlt, he⟩
        · exact Or.inl (by rw [hloop, heq, hst])
        · refine Or.inr ⟨0, Nat.succ_pos _, ?_, ?_, he, ?_⟩
          · rw [hloop, heq, hst]; rfl
          · rw [hloop, heq, hst]; rfl
          · rw [hloop, heq, hst]; exact hlt
      · refine Or.inr ⟨k + 1, Nat.succ_lt_succ hk, ?_, ?_, he, ?_⟩
        · rw [hloop, h2]; omega
        · rw [hloop, h1]; rfl
        · rw [hloop]
          exact lt_of_le_of_lt (gflopsStep_fst_le b d i st) hlt

theorem gflopsLoop_least (b : Int) :
    ∀ (ds : List Device) (i : Nat) (st : Int × Nat) (k : Nat) (h : k < ds.length),
      elig b (ds.get ⟨k, h⟩) →
      computePerf (ds.get ⟨k, h⟩) = (gflopsLoop b ds i st).1 →
      st.1 < (gflopsLoop b ds i st).1 →
      (gflopsLoop b ds i st).2 ≤ i + k
  | d :: ds, i, st, 0, _, he, hmax, hst => by
      have hloop : gflopsLoop b (d :: ds) i st = gflopsLoop b ds (i + 1) (gflopsStep b d i st) := rfl
      have hget : (d :: ds).get ⟨0, Nat.succ_pos _⟩ = d := rfl
      rw [hget] at he hmax
      by_cases hperf : computePerf d > st.1
      · have hstep : gflopsStep b d i st = (computePerf d, i) := by
          unfold gflopsStep
          rw [if_pos hperf]
          split
          · rename_i hb
            rw [if_pos (he hb)]
          · rfl
        rcases gflopsLoop_shape b ds (i + 1) (gflopsStep b d i st) with heq | ⟨_, _, _, _, _, hlt⟩
        · rw [hloop, heq, hstep]; omega
        · exfalso
          rw [hloop, hstep] at hmax
          rw [hstep] at hlt
          have hlt' : computePerf d < (gflopsLoop b ds (i + 1) (computePerf d, i)).1 := hlt
          omega
      · exfalso
        have h1 : computePerf d ≤ st.1 := le_of_not_lt hperf
        rw [hloop] at hmax hst
        omega
  | d :: ds, i, st, k + 1, h, he, hmax, hst => by
      have hloop : gflopsLoop b (d :: ds) i st = gflopsLoop b ds (i + 1) (gflopsStep b d i st) := rfl
      have hk := Nat.lt_of_succ_lt_succ h
      have hget : (d :: ds).get ⟨k + 1, h⟩ = ds.get ⟨k, hk⟩ := rfl
      rw [hget] at he hmax
      by_cases hst' : (gflopsStep b d i st).1 < (gflopsLoop b ds (i + 1) (gflopsStep b d i st)).1
      · have := gflopsLoop_least b ds (i + 1) (gflopsStep b d i st) k hk he (by rw [hloop] at hmax; exact hmax) hst'
        rw [hloop]; omega
      · rcases gflopsLoop_shape b ds (i + 1) (gflopsStep b d i st) with heq | ⟨_, _, _, _, _, hlt⟩
        · rcases gflopsStep_cases b d i st with hcase | ⟨hcase, hlt2, _⟩
          · exfalso
            rw [hloop, heq, hcase] at hst
            omega
          · rw [hloop, heq, hcase]; omega
        · exact absurd hlt hst'

theorem foldl_archStep_attained :
    ∀ (ds : List Device) (a : Int),
      ds.foldl archStep a = a ∨ ∃ d ∈ ds, d.major = ds.foldl archStep a
  | [], _ => Or.inl rfl
  | d :: ds, a => by
      have hl : (d :: ds).foldl archStep a = ds.foldl archStep (archStep a d) := rfl
      rcases foldl_archStep_attained ds (archStep a d) with heq | ⟨d', hd', hmaj⟩
      · rw [hl, heq]
        unfold archStep
        split
        · rcases max_choice a d.major with hm | hm
          · rw [hm]; exact Or.inl rfl
          · rw [hm]; exact Or.inr ⟨d, List.mem_cons_self _ _, rfl⟩
        · exact Or.inl rfl
      · rw [hl]; exact Or.inr ⟨d', List.mem_cons_of_mem _ hd', hmaj⟩

/-- When `best_SM_arch > 2` some device's major attains it. -/
theorem bestSMArch_mem (ds : List Device) (h : 2 < bestSMArch ds) :
    ∃ d ∈ ds, d.major = bestSMArch ds := by
  rcases foldl_archStep_attained ds 0 with heq | hex
  · exfalso
    have h0 : bestSMArch ds = 0 := heq
    omega
  · exact hex

/-- The architecture weighting is always positive (the no-CUDA 9999.9999
capability gets weight 1, every table entry is positive). -/
theorem smPerMultiproc_pos (d : Device) : 0 < smPerMultiproc d := by
  unfold smPerMultiproc _ConvertSMVer2Cores
  split_ifs <;> norm_num

theorem computePerf_pos (d : Device) (h1 : 0 < d.multiProcessorCount)
    (h2 : 0 < d.clockRate) : 0 < computePerf d :=
  mul_pos (mul_pos h1 (smPerMultiproc_pos d)) h2

/-- On a successful `cuDeviceGetCount`, `getMaxGflopsDeviceIdDRV` returns
the index computed by the two loops. -/
theorem getMaxGflops_ret (env : DrvEnv) (h0 : env.cuDeviceGetCountRes = 0) :
    getMaxGflopsDeviceIdDRV env =
      (ProcOut.ret ((gflopsLoop (bestSMArch env.devices) env.devices 0 (0, 0)).2 : Int),
        []) := by
  unfold getMaxGflopsDeviceIdDRV
  rw [if_neg (by simp [h0])]

/-! ## Path lemmas for the device-init helpers -/

theorem gpuDeviceInitDRV_eq_apiError (env : DrvEnv) (cmd : CmdLine)
    (h1 : env.cuInitRes = 0) (h2 : env.cuDeviceGetCountRes ≠ 0) :
    gpuDeviceInitDRV env cmd =
      (ProcOut.exit (-1), [drvErrMsg env.cuDeviceGetCountRes]) := by
  unfold gpuDeviceInitDRV
  rw [if_pos ⟨h1, h2⟩]

theorem gpuDeviceInitDRV_eq_noDevices (env : DrvEnv) (cmd : CmdLine)
    (h1 : env.cuInitRes = 0) (h2 : env.cuDeviceGetCountRes = 0)
    (hemp : env.devices = []) :
    gpuDeviceInitDRV env cmd =
      (ProcOut.exit (-1), ["cudaDeviceInit error: no devices supporting CUDA"]) := by
  unfold gpuDeviceInitDRV
  rw [if_neg (by simp [h2])]
  simp [h1, hemp]

theorem gpuDeviceInitDRV_eq_reject (env : DrvEnv) (cmd : CmdLine)
    (h1 : env.cuInitRes = 0) (h2 : env.cuDeviceGetCountRes = 0)
    (hne : env.devices ≠ [])
    (harg : (env.devices.length : Int) - 1 < cmd.deviceArg) :
    gpuDeviceInitDRV env cmd =
      (ProcOut.ret (-cmd.deviceArg),
        ["",
         ">> " ++ toString ((env.devices.length : Int)) ++ " CUDA capable GPU device(s) detected. <<",
         ">> cudaDeviceInit (-device=" ++ toString cmd.deviceArg ++ ") is not a valid GPU device. <<",
         ""]) := by
  have hlen : 0 < env.devices.length := List.length_pos.mpr hne
  have hc1 : ¬(cmd.deviceArg < 0) := by omega
  have hc2 : ((env.devices.length : Int)) - 1 < cmd.deviceArg := by omega
  have hc3 : ¬((env.devices.length : Int) = 0) := by omega
  unfold gpuDeviceInitDRV
  simp [h1, h2, hc1, hc2, hc3]

theorem gpuDeviceInitDRV_eq_success (env : DrvEnv) (cmd : CmdLine)
    (h1 : env.cuInitRes = 0) (h2 : env.cuDeviceGetCountRes = 0)
    (h3 : env.cuDeviceGetRes = 0) (hpos : 0 ≤ cmd.deviceArg)
    (hr : cmd.deviceArg ≤ (env.devices.length : Int) - 1) :
    gpuDeviceInitDRV env cmd =
      (ProcOut.ret cmd.deviceArg,
        if cmd.quietFlag then []
        else ["gpuDeviceInitDRV() Using CUDA Device [" ++ toString cmd.deviceArg ++ "]: " ++
              (deviceAt env.devices cmd.deviceArg.toNat).name]) := by
  have hlen : 0 < env.devices.length := by omega
  have hc1 : ¬(cmd.deviceArg < 0) := by omega
  have hc2 : ¬(((env.devices.length : Int)) - 1 < cmd.deviceArg) := by omega
  have hc3 : ¬((env.devices.length : Int) = 0) := by omega
  unfold gpuDeviceInitDRV
  simp [h1, h2, h3, hc1, hc2, hc3]
  split <;> rfl

theorem gpuGLDeviceInit_eq_noDevices (env : RtEnv) (cmd : CmdLine)
    (h1 : env.getDeviceCountRes = 0) (hemp : env.devices = []) :
    gpuGLDeviceInit env cmd =
      ⟨ProcOut.exit (-1), ["CUDA error: no devices supporting CUDA."], []⟩ := by
  unfold gpuGLDeviceInit
  rw [if_neg (by simp [h1])]
  simp [hemp]

theorem gpuGLDeviceInit_eq_reject (env : RtEnv) (cmd : CmdLine)
    (h1 : env.getDeviceCountRes = 0) (hne : env.devices ≠ [])
    (harg : (env.devices.length : Int) - 1 < cmd.deviceArg) :
    gpuGLDeviceInit env cmd =
      ⟨ProcOut.ret (-cmd.deviceArg),
        ["",
         ">> " ++ toString ((env.devices.length : Int)) ++ " CUDA capable GPU device(s) detected. <<",
         ">> gpuGLDeviceInit (-device=" ++ toString cmd.deviceArg ++ ") is not a valid GPU device. <<",
         ""], []⟩ := by
  have hlen : 0 < env.devices.length := List.length_pos.mpr hne
  have hc1 : ¬(cmd.deviceArg < 0) := by omega
  have hc2 : ((env.devices.length : Int)) - 1 < cmd.deviceArg := by omega
  have hc3 : ¬(env.devices.length = 0) := by omega
  unfold gpuGLDeviceInit
  simp [h1, hc1, hc2, hc3]

theorem gpuGLDeviceInit_eq_badMajor (env : RtEnv) (cmd : CmdLine)
    (h1 : env.getDeviceCountRes = 0) (h2 : env.getDevicePropertiesRes = 0)
    (hpos : 0 ≤ cmd.deviceArg)
    (hr : cmd.deviceArg ≤ (env.devices.length : Int) - 1)
    (hmaj : (deviceAt env.devices cmd.deviceArg.toNat).major < 1) :
    gpuGLDeviceInit env cmd =
      ⟨ProcOut.exit (-1), ["Error: device does not support CUDA."], []⟩ := by
  have hlen : 0 < env.devices.length := by omega
  have hc1 : ¬(cmd.deviceArg < 0) := by omega
  have hc2 : ¬(((env.devices.length : Int)) - 1 < cmd.deviceArg) := by omega
  have hc3 : ¬(env.devices.length = 0) := by omega
  unfold gpuGLDeviceInit
  simp [h1, h2, hc1, hc2, hc3, hmaj]

theorem gpuGLDeviceInit_eq_success (env : RtEnv) (cmd : CmdLine)
    (h1 : env.getDeviceCountRes = 0) (h2 : env.getDevicePropertiesRes = 0)
    (h3 : env.glSetGLDeviceRes = 0) (hpos : 0 ≤ cmd.deviceArg)
    (hr : cmd.deviceArg ≤ (env.devices.length : Int) - 1)
    (hmaj : 1 ≤ (deviceAt env.devices cmd.deviceArg.toNat).major) :
    gpuGLDeviceInit env cmd =
      ⟨ProcOut.ret cmd.deviceArg,
        (if cmd.quietFlag then []
         else ["Using device " ++ toString cmd.deviceArg ++ ": " ++
               (deviceAt env.devices cmd.deviceArg.toNat).name]),
        [cmd.deviceArg]⟩ := by
  have hlen : 0 < env.devices.length := by omega
  have hc1 : ¬(cmd.deviceArg < 0) := by omega
  have hc2 : ¬(((env.devices.length : Int)) - 1 < cmd.deviceArg) := by omega
  have hc3 : ¬(env.devices.length = 0) := by omega
  have hc4 : ¬((deviceAt env.devices cmd.deviceArg.toNat).major < 1) := by omega
  unfold gpuGLDeviceInit
  simp [h1, h2, h3, hc1, hc2, hc3, hc4]

theorem findCudaDeviceDRV_flag_neg (env : DrvEnv) (cmd : CmdLine) (pDev : Bool)
    (hflag : cmd.deviceFlag = true) (v : Int) (out : List String)
    (hg : gpuDeviceInitDRV env cmd = (ProcOut.ret v, out)) (hv : v < 0) :
    findCudaDeviceDRV env cmd pDev = (ProcOut.exit 0, out ++ ["exiting..."]) := by
  unfold findCudaDeviceDRV
  rw [if_pos hflag, hg]
  simp [hv]

theorem findCudaDeviceDRV_flag_pos (env : DrvEnv) (cmd : CmdLine) (pDev : Bool)
    (hflag : cmd.deviceFlag = true) (v : Int) (out : List String)
    (hg : gpuDeviceInitDRV env cmd = (ProcOut.ret v, out)) (hv : 0 ≤ v)
    (h3 : env.cuDeviceGetRes = 0) :
    findCudaDeviceDRV env cmd pDev =
      (ProcOut.ret (v, if pDev then some v else none), out) := by
  unfold findCudaDeviceDRV
  rw [if_pos hflag, hg]
  simp [h3, not_lt.mpr hv]

theorem findCudaDeviceDRV_noflag (env : DrvEnv) (cmd : CmdLine) (pDev : Bool)
    (hflag : cmd.deviceFlag = false) (h2 : env.cuDeviceGetCountRes = 0)
    (h3 : env.cuDeviceGetRes = 0) :
    findCudaDeviceDRV env cmd pDev =
      (ProcOut.ret
          (((gflopsLoop (bestSMArch env.devices) env.devices 0 (0, 0)).2 : Int),
            if pDev
            then some ((gflopsLoop (bestSMArch env.devices) env.devices 0 (0, 0)).2 : Int)
            else none),
        ["> Using CUDA Device [" ++
            toString ((gflopsLoop (bestSMArch env.devices) env.devices 0 (0, 0)).2 : Int) ++
            "]: " ++
            (deviceAt env.devices
              ((gflopsLoop (bestSMArch env.devices) env.devices 0 (0, 0)).2 : Int).toNat).name]) := by
  unfold findCudaDeviceDRV
  rw [if_neg (by simp [hflag]), getMaxGflops_ret env h2]
  simp [h3]

theorem findCudaGLDevice_flag_neg (env : RtEnv) (cmd : CmdLine)
    (hflag : cmd.deviceFlag = true) (v : Int) (out : List String) (gl : List Int)
    (hg : gpuGLDeviceInit env cmd = ⟨ProcOut.ret v, out, gl⟩) (hv : v < 0) :
    findCudaGLDevice env cmd =
      ⟨ProcOut.exit 0, out ++ ["no CUDA capable devices found, exiting..."], gl⟩ := by
  unfold findCudaGLDevice
  rw [if_pos hflag, hg]
  simp [hv]

theorem findCudaGLDevice_flag_exit (env : RtEnv) (cmd : CmdLine)
    (hflag : cmd.deviceFlag = true) (c : Int) (out : List String) (gl : List Int)
    (hg : gpuGLDeviceInit env cmd = ⟨ProcOut.exit c, out, gl⟩) :
    findCudaGLDevice env cmd = ⟨ProcOut.exit c, out, gl⟩ := by
  unfold findCudaGLDevice
  rw [if_pos hflag, hg]

theorem gpuDeviceInitDRV_exitCode (env : DrvEnv) (cmd : CmdLine) (c : Int)
    (h : (gpuDeviceInitDRV env cmd).1 = ProcOut.exit c) : c = -1 := by
  unfold gpuDeviceInitDRV at h
  by_cases hd : env.devices = [] <;> split_ifs at h <;> simp_all <;>
    (try (split at h <;> simp_all))

theorem gpuGLDeviceInit_exitCode (env : RtEnv) (cmd : CmdLine) (c : Int)
    (h : (gpuGLDeviceInit env cmd).outcome = ProcOut.exit c) : c = -1 := by
  unfold gpuGLDeviceInit at h
  by_cases hd : env.devices = [] <;> split_ifs at h <;> simp_all <;>
    (try (split at h <;> simp_all)) <;> (try (split at h <;> simp_all))

theorem getMaxGflops_exitCode (env : DrvEnv) (c : Int)
    (h : (getMaxGflopsDeviceIdDRV env).1 = ProcOut.exit c) : c = -1 := by
  unfold getMaxGflopsDeviceIdDRV at h
  split_ifs at h <;> simp_all

/-- `findCudaDeviceDRV` exits with code 0 only when the `device` flag was
given and `gpuDeviceInitDRV` returned a negative (rejected) index. -/
theorem findCudaDeviceDRV_exit_zero_inv (env : DrvEnv) (cmd : CmdLine) (pDev : Bool)
    (h : (findCudaDeviceDRV env cmd pDev).1 = ProcOut.exit 0) :
    cmd.deviceFlag = true ∧
      ∃ v : Int, v < 0 ∧ (gpuDeviceInitDRV env cmd).1 = ProcOut.ret v := by
  unfold findCudaDeviceDRV at h
  by_cases hflag : cmd.deviceFlag
  · rw [if_pos hflag] at h
    rcases hg : gpuDeviceInitDRV env cmd with ⟨o, out⟩
    rw [hg] at h
    cases o with
    | exit c =>
        have hc : c = -1 := gpuDeviceInitDRV_exitCode env cmd c (by rw [hg])
        simp [hc] at h
    | ret v =>
        by_cases hv : v < 0
        · exact ⟨hflag, v, hv, rfl⟩
        · simp [hv] at h
  · rw [if_neg hflag] at h
    by_cases h2 : env.cuDeviceGetCountRes = 0
    · rw [getMaxGflops_ret env h2] at h
      by_cases h3 : env.cuDeviceGetRes ≠ 0 <;> simp [h3] at h
    · have hm : getMaxGflopsDeviceIdDRV env =
          (ProcOut.exit (-1), [drvErrMsg env.cuDeviceGetCountRes]) := by
        unfold getMaxGflopsDeviceIdDRV
        rw [if_pos h2]
      rw [hm] at h
      simp at h

/-! ## Claim theorems -/

/-- C2: `__checkCudaErrors(err, file, line)` terminates the process
(`exit(-1)`) after printing the human-readable error string with file and
line context exactly when `err` is not `CUDA_SUCCESS`; on `CUDA_SUCCESS`
it returns normally with no output. -/
theorem checkCudaErrors_exits_iff (err : Int) (file : String) (line : Int) :
    (__checkCudaErrors err file line =
        (ProcOut.exit (-1), [checkCudaErrorsMsg err file line]) ↔ err ≠ 0) ∧
    (__checkCudaErrors err file line = (ProcOut.ret (), []) ↔ err = 0) := by
  unfold __checkCudaErrors
  by_cases h : err = 0 <;> simp [h]

theorem checkCudaErrors_exits_iff_w :
    (__checkCudaErrors 1 "matrixMulDrv.cpp" 5 =
        (ProcOut.exit (-1), [checkCudaErrorsMsg 1 "matrixMulDrv.cpp" 5]) ↔ (1 : Int) ≠ 0) ∧
    (__checkCudaErrors 1 "matrixMulDrv.cpp" 5 = (ProcOut.ret (), []) ↔ (1 : Int) = 0) :=
  checkCudaErrors_exits_iff 1 "matrixMulDrv.cpp" 5

/-- C8: a negative parsed `device=` value is silently clamped to 0: both
helpers behave exactly as if `device=0` had been supplied, and (on the
success path) proceed with device 0. -/
theorem negativeDeviceArg_clamped (denv : DrvEnv) (renv : RtEnv) (cmd : CmdLine)
    (h : cmd.deviceArg < 0) :
    gpuDeviceInitDRV denv cmd = gpuDeviceInitDRV denv { cmd with deviceArg := 0 } ∧
    gpuGLDeviceInit renv cmd = gpuGLDeviceInit renv { cmd with deviceArg := 0 } ∧
    (denv.cuInitRes = 0 → denv.cuDeviceGetCountRes = 0 → denv.cuDeviceGetRes = 0 →
      denv.devices ≠ [] → (gpuDeviceInitDRV denv cmd).1 = ProcOut.ret 0) := by
  refine ⟨?_, ?_, ?_⟩
  · unfold gpuDeviceInitDRV
    simp [h]
  · unfold gpuGLDeviceInit
    simp [h]
  · intro h1 h2 h3 hne
    have hlen : 0 < denv.devices.length := List.length_pos.mpr hne
    unfold gpuDeviceInitDRV
    rw [if_neg (by simp [h2])]
    simp only [h1, if_pos rfl, if_pos h]
    rw [if_neg (by push_cast; omega)]
    rw [if_neg (by push_cast; omega)]
    rw [if_neg (by simp [h3])]
    split <;> rfl

theorem negativeDeviceArg_clamped_w :
    gpuDeviceInitDRV ⟨[⟨3, 0, 2, 7, "a"⟩], 0, 0, 0⟩ ⟨true, -4, false⟩ =
      gpuDeviceInitDRV ⟨[⟨3, 0, 2, 7, "a"⟩], 0, 0, 0⟩ ⟨true, 0, false⟩ ∧
    gpuGLDeviceInit ⟨[⟨3, 0, 2, 7, "a"⟩], 0, 0, 0⟩ ⟨true, -4, false⟩ =
      gpuGLDeviceInit ⟨[⟨3, 0, 2, 7, "a"⟩], 0, 0, 0⟩ ⟨true, 0, false⟩ ∧
    ((0 : Int) = 0 → (0 : Int) = 0 → (0 : Int) = 0 →
      ([⟨3, 0, 2, 7, "a"⟩] : List Device) ≠ [] →
      (gpuDeviceInitDRV ⟨[⟨3, 0, 2, 7, "a"⟩], 0, 0, 0⟩ ⟨true, -4, false⟩).1 =
        ProcOut.ret 0) :=
  negativeDeviceArg_clamped ⟨[⟨3, 0, 2, 7, "a"⟩], 0, 0, 0⟩ ⟨[⟨3, 0, 2, 7, "a"⟩], 0, 0, 0⟩
    ⟨true, -4, false⟩ (by decide)

/-- C3 counterexample: one device is enumerated and `device=2` is
explicitly supplied; the rejection path makes the process exit with code
0 through both callers, not with a non-zero code. -/
theorem rejectExitCode_cex :
    (findCudaDeviceDRV ⟨[⟨3, 0, 2, 7, "a"⟩], 0, 0, 0⟩ ⟨true, 2, false⟩ true).1 =
      ProcOut.exit 0 ∧
    (findCudaGLDevice ⟨[⟨3, 0, 2, 7, "a"⟩], 0, 0, 0⟩ ⟨true, 2, false⟩).outcome =
      ProcOut.exit 0 := by decide

/-- C3 (amended): an explicitly supplied device index greater than the
device count minus one is rejected — `gpuDeviceInitDRV` and
`gpuGLDeviceInit` print the rejection and return the negated index — and
the process then exits through the callers with exit code 0, not a
non-zero code. -/
theorem rejectOutOfRange (denv : DrvEnv) (renv : RtEnv) (cmd : CmdLine) (pDev : Bool)
    (hflag : cmd.deviceFlag = true)
    (h1 : denv.cuInitRes = 0) (h2 : denv.cuDeviceGetCountRes = 0)
    (hne : denv.devices ≠ [])
    (harg : (denv.devices.length : Int) - 1 < cmd.deviceArg)
    (hr1 : renv.getDeviceCountRes = 0) (hner : renv.devices ≠ [])
    (hargr : (renv.devices.length : Int) - 1 < cmd.deviceArg) :
    (gpuDeviceInitDRV denv cmd).1 = ProcOut.ret (-cmd.deviceArg) ∧
    (findCudaDeviceDRV denv cmd pDev).1 = ProcOut.exit 0 ∧
    (gpuGLDeviceInit renv cmd).outcome = ProcOut.ret (-cmd.deviceArg) ∧
    (findCudaGLDevice renv cmd).outcome = ProcOut.exit 0 := by
  have hlen : 0 < denv.devices.length := List.length_pos.mpr hne
  have hg := gpuDeviceInitDRV_eq_reject denv cmd h1 h2 hne harg
  have hgl := gpuGLDeviceInit_eq_reject renv cmd hr1 hner hargr
  have hneg : -cmd.deviceArg < 0 := by omega
  refine ⟨by rw [hg], ?_, by rw [hgl], ?_⟩
  · rw [findCudaDeviceDRV_flag_neg denv cmd pDev hflag _ _ hg hneg]
  · rw [findCudaGLDevice_flag_neg renv cmd hflag _ _ _ hgl hneg]

theorem rejectOutOfRange_w :
    (gpuDeviceInitDRV ⟨[⟨3, 0, 2, 7, "a"⟩], 0, 0, 0⟩ ⟨true, 2, false⟩).1 =
      ProcOut.ret (-2) ∧
    (findCudaDeviceDRV ⟨[⟨3, 0, 2, 7, "a"⟩], 0, 0, 0⟩ ⟨true, 2, false⟩ true).1 =
      ProcOut.exit 0 ∧
    (gpuGLDeviceInit ⟨[⟨3, 0, 2, 7, "a"⟩], 0, 0, 0⟩ ⟨true, 2, false⟩).outcome =
      ProcOut.ret (-2) ∧
    (findCudaGLDevice ⟨[⟨3, 0, 2, 7, "a"⟩], 0, 0, 0⟩ ⟨true, 2, false⟩).outcome =
      ProcOut.exit 0 :=
  rejectOutOfRange ⟨[⟨3, 0, 2, 7, "a"⟩], 0, 0, 0⟩ ⟨[⟨3, 0, 2, 7, "a"⟩], 0, 0, 0⟩
    ⟨true, 2, false⟩ true rfl rfl rfl (by decide) (by decide) rfl (by decide) (by decide)

/-- C4 counterexample: with zero enumerated devices and all API calls
succeeding, `gpuDeviceInitDRV` and `gpuGLDeviceInit` exit with code -1 —
not with code 0 as the claim asserts for the zero-device case. -/
theorem exitCodes_cex :
    (gpuDeviceInitDRV ⟨[], 0, 0, 0⟩ ⟨false, 0, false⟩).1 = ProcOut.exit (-1) ∧
    (gpuGLDeviceInit ⟨[], 0, 0, 0⟩ ⟨false, 0, false⟩).outcome = ProcOut.exit (-1) ∧
    (ProcOut.exit (-1) : ProcOut Int) ≠ ProcOut.exit 0 := by decide

/-- C4 (amended): exit code 0 occurs exactly on the graceful "exiting"
paths of the callers, reached when an explicitly supplied out-of-range
index was rejected; the negative device index is a *return value* of the
init helpers, never an exit code; every hard-error exit — zero devices
included — uses code -1. -/
theorem exitCodes (denv : DrvEnv) (renv : RtEnv) (cmd : CmdLine) (pDev : Bool) :
    (denv.cuInitRes = 0 → denv.cuDeviceGetCountRes = 0 → denv.devices = [] →
      (gpuDeviceInitDRV denv cmd).1 = ProcOut.exit (-1)) ∧
    (renv.getDeviceCountRes = 0 → renv.devices = [] →
      (gpuGLDeviceInit renv cmd).outcome = ProcOut.exit (-1)) ∧
    (∀ c : Int, (gpuDeviceInitDRV denv cmd).1 = ProcOut.exit c → c = -1) ∧
    (∀ c : Int, (gpuGLDeviceInit renv cmd).outcome = ProcOut.exit c → c = -1) ∧
    (cmd.deviceFlag = true → denv.cuInitRes = 0 → denv.cuDeviceGetCountRes = 0 →
      denv.devices ≠ [] → (denv.devices.length : Int) - 1 < cmd.deviceArg →
      (findCudaDeviceDRV denv cmd pDev).1 = ProcOut.exit 0) ∧
    ((findCudaDeviceDRV denv cmd pDev).1 = ProcOut.exit 0 →
      cmd.deviceFlag = true ∧
        ∃ v : Int, v < 0 ∧ (gpuDeviceInitDRV denv cmd).1 = ProcOut.ret v) := by
  refine ⟨?_, ?_, ?_, ?_, ?_, ?_⟩
  · intro h1 h2 hemp
    rw [gpuDeviceInitDRV_eq_noDevices denv cmd h1 h2 hemp]
  · intro h1 hemp
    rw [gpuGLDeviceInit_eq_noDevices renv cmd h1 hemp]
  · exact gpuDeviceInitDRV_exitCode denv cmd
  · exact gpuGLDeviceInit_exitCode renv cmd
  · intro hflag h1 h2 hne harg
    have hlen : 0 < denv.devices.length := List.length_pos.mpr hne
    have hg := gpuDeviceInitDRV_eq_reject denv cmd h1 h2 hne harg
    rw [findCudaDeviceDRV_flag_neg denv cmd pDev hflag _ _ hg (by omega)]
  · exact findCudaDeviceDRV_exit_zero_inv denv cmd pDev

theorem exitCodes_w :
    ((0 : Int) = 0 → (0 : Int) = 0 → ([] : List Device) = [] →
      (gpuDeviceInitDRV ⟨[], 0, 0, 0⟩ ⟨false, 0, false⟩).1 = ProcOut.exit (-1)) ∧
    ((0 : Int) = 0 → ([] : List Device) = [] →
      (gpuGLDeviceInit ⟨[], 0, 0, 0⟩ ⟨false, 0, false⟩).outcome = ProcOut.exit (-1)) ∧
    (∀ c : Int,
      (gpuDeviceInitDRV ⟨[], 0, 0, 0⟩ ⟨false, 0, false⟩).1 = ProcOut.exit c → c = -1) ∧
    (∀ c : Int,
      (gpuGLDeviceInit ⟨[], 0, 0, 0⟩ ⟨false, 0, false⟩).outcome = ProcOut.exit c → c = -1) ∧
    ((⟨false, 0, false⟩ : CmdLine).deviceFlag = true → (0 : Int) = 0 → (0 : Int) = 0 →
      ([] : List Device) ≠ [] → (([] : List Device).length : Int) - 1 < 0 →
      (findCudaDeviceDRV ⟨[], 0, 0, 0⟩ ⟨false, 0, false⟩ false).1 = ProcOut.exit 0) ∧
    ((findCudaDeviceDRV ⟨[], 0, 0, 0⟩ ⟨false, 0, false⟩ false).1 = ProcOut.exit 0 →
      (⟨false, 0, false⟩ : CmdLine).deviceFlag = true ∧
        ∃ v : Int, v < 0 ∧
          (gpuDeviceInitDRV ⟨[], 0, 0, 0⟩ ⟨false, 0, false⟩).1 = ProcOut.ret v) :=
  exitCodes ⟨[], 0, 0, 0⟩ ⟨[], 0, 0, 0⟩ ⟨false, 0, false⟩ false

/-- C5 counterexample: with one device and explicit `device=2`, neither
helper terminates the process on the invalid-index failure: each returns
the error result -2 to its caller. -/
theorem errorPropagation_cex :
    (gpuDeviceInitDRV ⟨[⟨3, 0, 2, 7, "a"⟩], 0, 0, 0⟩ ⟨true, 2, false⟩).1 =
      ProcOut.ret (-2) ∧
    (gpuGLDeviceInit ⟨[⟨3, 0, 2, 7, "a"⟩], 0, 0, 0⟩ ⟨true, 2, false⟩).outcome =
      ProcOut.ret (-2) := by decide

/-- C5 (amended): the no-devices and native-API failure modes print a
message and terminate the process, but the invalid-device-index failure
mode prints a message and *returns* the negated index: an error result
that is propagated to the caller of `gpuDeviceInitDRV` / `gpuGLDeviceInit`. -/
theorem failureModes (denv : DrvEnv) (renv : RtEnv) (cmd : CmdLine) :
    (denv.cuInitRes = 0 → denv.cuDeviceGetCountRes = 0 → denv.devices = [] →
      gpuDeviceInitDRV denv cmd =
        (ProcOut.exit (-1), ["cudaDeviceInit error: no devices supporting CUDA"])) ∧
    (denv.cuInitRes = 0 → denv.cuDeviceGetCountRes ≠ 0 →
      gpuDeviceInitDRV denv cmd =
        (ProcOut.exit (-1), [drvErrMsg denv.cuDeviceGetCountRes])) ∧
    (denv.cuInitRes = 0 → denv.cuDeviceGetCountRes = 0 → denv.devices ≠ [] →
      (denv.devices.length : Int) - 1 < cmd.deviceArg →
      (gpuDeviceInitDRV denv cmd).1 = ProcOut.ret (-cmd.deviceArg)) ∧
    (renv.getDeviceCountRes = 0 → renv.devices = [] →
      gpuGLDeviceInit renv cmd =
        ⟨ProcOut.exit (-1), ["CUDA error: no devices supporting CUDA."], []⟩) ∧
    (renv.getDeviceCountRes ≠ 0 →
      gpuGLDeviceInit renv cmd =
        ⟨ProcOut.exit (-1), [drvErrMsg renv.getDeviceCountRes], []⟩) ∧
    (renv.getDeviceCountRes = 0 → renv.devices ≠ [] →
      (renv.devices.length : Int) - 1 < cmd.deviceArg →
      (gpuGLDeviceInit renv cmd).outcome = ProcOut.ret (-cmd.deviceArg)) := by
  refine ⟨?_, ?_, ?_, ?_, ?_, ?_⟩
  · exact gpuDeviceInitDRV_eq_noDevices denv cmd
  · intro h1 h2
    exact gpuDeviceInitDRV_eq_apiError denv cmd h1 h2
  · intro h1 h2 hne harg
    rw [gpuDeviceInitDRV_eq_reject denv cmd h1 h2 hne harg]
  · exact gpuGLDeviceInit_eq_noDevices renv cmd
  · intro h1
    unfold gpuGLDeviceInit
    rw [if_pos h1]
  · intro h1 hne harg
    rw [gpuGLDeviceInit_eq_reject renv cmd h1 hne harg]

theorem failureModes_w :
    ((0 : Int) = 0 → (0 : Int) = 0 → ([⟨3, 0, 2, 7, "a"⟩] : List Device) = [] →
      gpuDeviceInitDRV ⟨[⟨3, 0, 2, 7, "a"⟩], 0, 0, 0⟩ ⟨true, 2, false⟩ =
        (ProcOut.exit (-1), ["cudaDeviceInit error: no devices supporting CUDA"])) ∧
    ((0 : Int) = 0 → (0 : Int) ≠ 0 →
      gpuDeviceInitDRV ⟨[⟨3, 0, 2, 7, "a"⟩], 0, 0, 0⟩ ⟨true, 2, false⟩ =
        (ProcOut.exit (-1), [drvErrMsg 0])) ∧
    ((0 : Int) = 0 → (0 : Int) = 0 → ([⟨3, 0, 2, 7, "a"⟩] : List Device) ≠ [] →
      (([⟨3, 0, 2, 7, "a"⟩] : List Device).length : Int) - 1 < 2 →
      (gpuDeviceInitDRV ⟨[⟨3, 0, 2, 7, "a"⟩], 0, 0, 0⟩ ⟨true, 2, false⟩).1 =
        ProcOut.ret (-2)) ∧
    ((0 : Int) = 0 → ([⟨3, 0, 2, 7, "a"⟩] : List Device) = [] →
      gpuGLDeviceInit ⟨[⟨3, 0, 2, 7, "a"⟩], 0, 0, 0⟩ ⟨true, 2, false⟩ =
        ⟨ProcOut.exit (-1), ["CUDA error: no devices supporting CUDA."], []⟩) ∧
    ((0 : Int) ≠ 0 →
      gpuGLDeviceInit ⟨[⟨3, 0, 2, 7, "a"⟩], 0, 0, 0⟩ ⟨true, 2, false⟩ =
        ⟨ProcOut.exit (-1), [drvErrMsg 0], []⟩) ∧
    ((0 : Int) = 0 → ([⟨3, 0, 2, 7, "a"⟩] : List Device) ≠ [] →
      (([⟨3, 0, 2, 7, "a"⟩] : List Device).length : Int) - 1 < 2 →
      (gpuGLDeviceInit ⟨[⟨3, 0, 2, 7, "a"⟩], 0, 0, 0⟩ ⟨true, 2, false⟩).outcome =
        ProcOut.ret (-2)) :=
  failureModes ⟨[⟨3, 0, 2, 7, "a"⟩], 0, 0, 0⟩ ⟨[⟨3, 0, 2, 7, "a"⟩], 0, 0, 0⟩
    ⟨true, 2, false⟩

/-- C6: `findCudaDeviceDRV` selects the device through `gpuDeviceInitDRV`
when the `device` flag is present and through `getMaxGflopsDeviceIdDRV`
otherwise; in both cases it returns the `CUdevice` handle of the chosen
index and stores the index through `p_devID` exactly when it is
non-null. -/
theorem findCudaDeviceDRV_selection (env : DrvEnv) (cmd : CmdLine) (v : Int)
    (out : List String)
    (h2 : env.cuDeviceGetCountRes = 0) (h3 : env.cuDeviceGetRes = 0)
    (hsel : (cmd.deviceFlag = true ∧ gpuDeviceInitDRV env cmd = (ProcOut.ret v, out) ∧ 0 ≤ v) ∨
            (cmd.deviceFlag = false ∧ (getMaxGflopsDeviceIdDRV env).1 = ProcOut.ret v)) :
    (findCudaDeviceDRV env cmd true).1 = ProcOut.ret (v, some v) ∧
    (findCudaDeviceDRV env cmd false).1 = ProcOut.ret (v, none) := by
  rcases hsel with ⟨hflag, hg, hv⟩ | ⟨hflag, hm⟩
  · constructor
    · rw [findCudaDeviceDRV_flag_pos env cmd true hflag v out hg hv h3]
      rfl
    · rw [findCudaDeviceDRV_flag_pos env cmd false hflag v out hg hv h3]
      rfl
  · rw [getMaxGflops_ret env h2] at hm
    simp only [Prod.fst] at hm
    have hv : ((gflopsLoop (bestSMArch env.devices) env.devices 0 (0, 0)).2 : Int) = v := by
      cases hm; rfl
    constructor
    · rw [findCudaDeviceDRV_noflag env cmd true hflag h2 h3, hv]
      rfl
    · rw [findCudaDeviceDRV_noflag env cmd false hflag h2 h3, hv]
      rfl

theorem findCudaDeviceDRV_selection_w :
    (findCudaDeviceDRV ⟨[⟨3, 0, 2, 7, "a"⟩], 0, 0, 0⟩ ⟨true, 0, false⟩ true).1 =
      ProcOut.ret (0, some 0) ∧
    (findCudaDeviceDRV ⟨[⟨3, 0, 2, 7, "a"⟩], 0, 0, 0⟩ ⟨true, 0, false⟩ false).1 =
      ProcOut.ret (0, none) :=
  findCudaDeviceDRV_selection ⟨[⟨3, 0, 2, 7, "a"⟩], 0, 0, 0⟩ ⟨true, 0, false⟩ 0
    ["gpuDeviceInitDRV() Using CUDA Device [0]: a"] rfl rfl
    (Or.inl ⟨rfl, by decide, by decide⟩)

/-- C7: on a successful selection, the `quiet` flag controls the
diagnostic exactly: with `quiet` the helpers print nothing, without it
they print the chosen device index and name. -/
theorem quietFlag_controls_diag (denv : DrvEnv) (renv : RtEnv) (cmd : CmdLine)
    (h1 : denv.cuInitRes = 0) (h2 : denv.cuDeviceGetCountRes = 0)
    (h3 : denv.cuDeviceGetRes = 0) (hpos : 0 ≤ cmd.deviceArg)
    (hrd : cmd.deviceArg ≤ (denv.devices.length : Int) - 1)
    (hr1 : renv.getDeviceCountRes = 0) (hr2 : renv.getDevicePropertiesRes = 0)
    (hr3 : renv.glSetGLDeviceRes = 0)
    (hrr : cmd.deviceArg ≤ (renv.devices.length : Int) - 1)
    (hmaj : 1 ≤ (deviceAt renv.devices cmd.deviceArg.toNat).major) :
    (gpuDeviceInitDRV denv cmd).2 =
      (if cmd.quietFlag then []
       else ["gpuDeviceInitDRV() Using CUDA Device [" ++ toString cmd.deviceArg ++ "]: " ++
             (deviceAt denv.devices cmd.deviceArg.toNat).name]) ∧
    (gpuGLDeviceInit renv cmd).output =
      (if cmd.quietFlag then []
       else ["Using device " ++ toString cmd.deviceArg ++ ": " ++
             (deviceAt renv.devices cmd.deviceArg.toNat).name]) := by
  constructor
  · rw [gpuDeviceInitDRV_eq_success denv cmd h1 h2 h3 hpos hrd]
  · rw [gpuGLDeviceInit_eq_success renv cmd hr1 hr2 hr3 hpos hrr hmaj]

theorem quietFlag_controls_diag_w :
    (gpuDeviceInitDRV ⟨[⟨3, 0, 2, 7, "a"⟩], 0, 0, 0⟩ ⟨false, 0, true⟩).2 = [] ∧
    (gpuGLDeviceInit ⟨[⟨3, 0, 2, 7, "a"⟩], 0, 0, 0⟩ ⟨false, 0, true⟩).output = [] :=
  quietFlag_controls_diag ⟨[⟨3, 0, 2, 7, "a"⟩], 0, 0, 0⟩ ⟨[⟨3, 0, 2, 7, "a"⟩], 0, 0, 0⟩
    ⟨false, 0, true⟩ rfl rfl rfl (by decide) (by decide) rfl rfl rfl (by decide) (by decide)

/-- C9: on an in-range selection, `gpuGLDeviceInit` exits with code -1
after printing "Error: device does not support CUDA." exactly when the
device's compute-capability major is below 1; it returns the device index
iff the major is at least 1, and only then has it called
`cudaGLSetGLDevice` on that index. -/
theorem gpuGLDeviceInit_capability (env : RtEnv) (cmd : CmdLine)
    (h1 : env.getDeviceCountRes = 0) (h2 : env.getDevicePropertiesRes = 0)
    (h3 : env.glSetGLDeviceRes = 0) (hpos : 0 ≤ cmd.deviceArg)
    (hr : cmd.deviceArg ≤ (env.devices.length : Int) - 1) :
    ((deviceAt env.devices cmd.deviceArg.toNat).major < 1 →
      gpuGLDeviceInit env cmd =
        ⟨ProcOut.exit (-1), ["Error: device does not support CUDA."], []⟩) ∧
    ((gpuGLDeviceInit env cmd).outcome = ProcOut.ret cmd.deviceArg ↔
      1 ≤ (deviceAt env.devices cmd.deviceArg.toNat).major) ∧
    (1 ≤ (deviceAt env.devices cmd.deviceArg.toNat).major →
      (gpuGLDeviceInit env cmd).glCalls = [cmd.deviceArg]) := by
  by_cases hmaj : (deviceAt env.devices cmd.deviceArg.toNat).major < 1
  · have he := gpuGLDeviceInit_eq_badMajor env cmd h1 h2 hpos hr hmaj
    refine ⟨fun _ => he, ?_, ?_⟩
    · rw [he]
      constructor
      · intro hcon
        simp at hcon
      · intro hge
        omega
    · intro hge
      omega
  · have hge : 1 ≤ (deviceAt env.devices cmd.deviceArg.toNat).major := by omega
    have hs := gpuGLDeviceInit_eq_success env cmd h1 h2 h3 hpos hr hge
    refine ⟨fun hlt => absurd hlt hmaj, ?_, ?_⟩
    · rw [hs]
      simp [hge]
    · intro hu
      rw [hs]

theorem gpuGLDeviceInit_capability_w :
    ((3 : Int) < 1 →
      gpuGLDeviceInit ⟨[⟨3, 0, 2, 7, "a"⟩], 0, 0, 0⟩ ⟨true, 0, false⟩ =
        ⟨ProcOut.exit (-1), ["Error: device does not support CUDA."], []⟩) ∧
    ((gpuGLDeviceInit ⟨[⟨3, 0, 2, 7, "a"⟩], 0, 0, 0⟩ ⟨true, 0, false⟩).outcome =
        ProcOut.ret 0 ↔ 1 ≤ (3 : Int)) ∧
    (1 ≤ (3 : Int) →
      (gpuGLDeviceInit ⟨[⟨3, 0, 2, 7, "a"⟩], 0, 0, 0⟩ ⟨true, 0, false⟩).glCalls =
        ([0] : List Int)) :=
  gpuGLDeviceInit_capability ⟨[⟨3, 0, 2, 7, "a"⟩], 0, 0, 0⟩ ⟨true, 0, false⟩ rfl rfl rfl
    (by decide) (by decide)

/-- C1 counterexample: two devices where device 1 has the strictly larger
throughput score `multiProcessorCount * sm_per_multiproc * clockRate` but
a lower SM architecture generation than device 0; the heuristic returns
index 0, not the index of the maximal-score device. -/
theorem maxGflops_cex :
    (getMaxGflopsDeviceIdDRV ⟨[⟨3, 0, 1, 1, "a"⟩, ⟨2, 0, 1000, 1000, "b"⟩], 0, 0, 0⟩).1 =
      ProcOut.ret 0 ∧
    computePerf ⟨3, 0, 1, 1, "a"⟩ < computePerf ⟨2, 0, 1000, 1000, "b"⟩ := by decide

/-- C1 (amended): with no explicit device index, `getMaxGflopsDeviceIdDRV`
scores every enumerated device by the architecture-weighted throughput
metric `multiProcessorCount * sm_per_multiproc * clockRate` and returns
the index of a device of maximal score among the *eligible* devices:
when the best SM major architecture exceeds 2, only devices of that
architecture are eligible, otherwise all devices are. -/
theorem maxGflops_amended (env : DrvEnv) (h0 : env.cuDeviceGetCountRes = 0)
    (hne : env.devices ≠ [])
    (hpos : ∀ d ∈ env.devices, 0 < d.multiProcessorCount ∧ 0 < d.clockRate) :
    ∃ r : Nat, ∃ hr : r < env.devices.length,
      (getMaxGflopsDeviceIdDRV env).1 = ProcOut.ret (r : Int) ∧
      elig (bestSMArch env.devices) (env.devices.get ⟨r, hr⟩) ∧
      ∀ j (hj : j < env.devices.length),
        elig (bestSMArch env.devices) (env.devices.get ⟨j, hj⟩) →
        computePerf (env.devices.get ⟨j, hj⟩) ≤ computePerf (env.devices.get ⟨r, hr⟩) := by
  obtain ⟨k, hk, hek, hpk⟩ : ∃ k, ∃ hk : k < env.devices.length,
      elig (bestSMArch env.devices) (env.devices.get ⟨k, hk⟩) ∧
        0 < computePerf (env.devices.get ⟨k, hk⟩) := by
    by_cases hb2 : 2 < bestSMArch env.devices
    · obtain ⟨d, hd, hmaj⟩ := bestSMArch_mem env.devices hb2
      obtain ⟨n, hn⟩ := List.mem_iff_get.mp hd
      refine ⟨n.1, n.2, ?_, ?_⟩
      · intro hcon
        have hget : env.devices.get ⟨n.1, n.2⟩ = d := hn
        rw [hget]
        exact hmaj
      · have hget : env.devices.get ⟨n.1, n.2⟩ = d := hn
        rw [hget]
        exact computePerf_pos d (hpos d hd).1 (hpos d hd).2
    · have hlen : 0 < env.devices.length := List.length_pos.mpr hne
      refine ⟨0, hlen, fun hcon => absurd hcon hb2, ?_⟩
      have hmem : env.devices.get ⟨0, hlen⟩ ∈ env.devices := env.devices.get_mem _ _
      exact computePerf_pos _ (hpos _ hmem).1 (hpos _ hmem).2
  have hub := gflopsLoop_le_of_elig (bestSMArch env.devices) env.devices 0 (0, 0) k hk hek
  have hlt0 : (0 : Int) < (gflopsLoop (bestSMArch env.devices) env.devices 0 (0, 0)).1 :=
    lt_of_lt_of_le hpk hub
  rcases gflopsLoop_shape (bestSMArch env.devices) env.devices 0 (0, 0) with
    heq | ⟨m, hm, hidx, hval, hel, hst⟩
  · exfalso
    have hz : (gflopsLoop (bestSMArch env.devices) env.devices 0 (0, 0)).1 = 0 := by
      rw [heq]
    omega
  · refine ⟨m, hm, ?_, hel, ?_⟩
    · rw [getMaxGflops_ret env h0]
      have hm0 : (gflopsLoop (bestSMArch env.devices) env.devices 0 (0, 0)).2 = m := by omega
      rw [hm0]
    · intro j hj hj_el
      have hle := gflopsLoop_le_of_elig (bestSMArch env.devices) env.devices 0 (0, 0) j hj hj_el
      rw [hval] at hle
      exact hle

theorem maxGflops_amended_w :
    ∃ r : Nat,
      ∃ hr : r < ([⟨3, 0, 1, 1, "a"⟩, ⟨2, 0, 1000, 1000, "b"⟩] : List Device).length,
      (getMaxGflopsDeviceIdDRV ⟨[⟨3, 0, 1, 1, "a"⟩, ⟨2, 0, 1000, 1000, "b"⟩], 0, 0, 0⟩).1 =
        ProcOut.ret (r : Int) ∧
      elig (bestSMArch [⟨3, 0, 1, 1, "a"⟩, ⟨2, 0, 1000, 1000, "b"⟩])
        (([⟨3, 0, 1, 1, "a"⟩, ⟨2, 0, 1000, 1000, "b"⟩] : List Device).get ⟨r, hr⟩) ∧
      ∀ j (hj : j < ([⟨3, 0, 1, 1, "a"⟩, ⟨2, 0, 1000, 1000, "b"⟩] : List Device).length),
        elig (bestSMArch [⟨3, 0, 1, 1, "a"⟩, ⟨2, 0, 1000, 1000, "b"⟩])
          (([⟨3, 0, 1, 1, "a"⟩, ⟨2, 0, 1000, 1000, "b"⟩] : List Device).get ⟨j, hj⟩) →
        computePerf (([⟨3, 0, 1, 1, "a"⟩, ⟨2, 0, 1000, 1000, "b"⟩] : List Device).get ⟨j, hj⟩) ≤
          computePerf (([⟨3, 0, 1, 1, "a"⟩, ⟨2, 0, 1000, 1000, "b"⟩] : List Device).get ⟨r, hr⟩) :=
  maxGflops_amended ⟨[⟨3, 0, 1, 1, "a"⟩, ⟨2, 0, 1000, 1000, "b"⟩], 0, 0, 0⟩ rfl
    (by decide) (by decide)

/-- C10: on a successful enumeration the heuristic returns 0 when no
device is enumerated and an index in `[0, device_count)` otherwise; and,
the score comparison being strict, every eligible device before the
returned index has a strictly smaller score, so among equal maximal
scores the lowest eligible index wins. -/
theorem maxGflops_range_ties (env : DrvEnv) (h0 : env.cuDeviceGetCountRes = 0) :
    ∃ r : Nat, (getMaxGflopsDeviceIdDRV env).1 = ProcOut.ret (r : Int) ∧
      (env.devices.length = 0 → r = 0) ∧
      (0 < env.devices.length → r < env.devices.length) ∧
      ∀ j (hj : j < env.devices.length) (hr : r < env.devices.length),
        j < r → elig (bestSMArch env.devices) (env.devices.get ⟨j, hj⟩) →
        computePerf (env.devices.get ⟨j, hj⟩) <
          computePerf (env.devices.get ⟨r, hr⟩) := by
  refine ⟨(gflopsLoop (bestSMArch env.devices) env.devices 0 (0, 0)).2,
    by rw [getMaxGflops_ret env h0], ?_, ?_, ?_⟩
  · intro hl
    have hl' : env.devices = [] := List.length_eq_zero.mp hl
    rw [hl']
    rfl
  · intro hlen
    rcases gflopsLoop_shape (bestSMArch env.devices) env.devices 0 (0, 0) with
      heq | ⟨m, hm, hidx, _, _, _⟩
    · rw [heq]
      exact hlen
    · omega
  · intro j hj hr hjr hel
    rcases gflopsLoop_shape (bestSMArch env.devices) env.devices 0 (0, 0) with
      heq | ⟨m, hm, hidx, hval, helm, hst⟩
    · exfalso
      have hz : (gflopsLoop (bestSMArch env.devices) env.devices 0 (0, 0)).2 = 0 := by
        rw [heq]
      omega
    · have hst' : (0 : Int) < (gflopsLoop (bestSMArch env.devices) env.devices 0 (0, 0)).1 :=
        hst
      have hub := gflopsLoop_le_of_elig (bestSMArch env.devices) env.devices 0 (0, 0) j hj hel
      by_cases heqp : computePerf (env.devices.get ⟨j, hj⟩) =
          (gflopsLoop (bestSMArch env.devices) env.devices 0 (0, 0)).1
      · exfalso
        have hleast := gflopsLoop_least (bestSMArch env.devices) env.devices 0 (0, 0)
          j hj hel heqp hst'
        omega
      · have hF : (⟨(gflopsLoop (bestSMArch env.devices) env.devices 0 (0, 0)).2, hr⟩ :
            Fin env.devices.length) = ⟨m, hm⟩ :=
          Fin.ext (show (gflopsLoop (bestSMArch env.devices) env.devices 0 (0, 0)).2 = m by omega)
        rw [hF, ← hval]
        omega

theorem maxGflops_range_ties_w :
    ∃ r : Nat,
      (getMaxGflopsDeviceIdDRV ⟨[⟨3, 0, 1, 1, "a"⟩, ⟨3, 0, 1, 1, "b"⟩], 0, 0, 0⟩).1 =
        ProcOut.ret (r : Int) ∧
      (([⟨3, 0, 1, 1, "a"⟩, ⟨3, 0, 1, 1, "b"⟩] : List Device).length = 0 → r = 0) ∧
      (0 < ([⟨3, 0, 1, 1, "a"⟩, ⟨3, 0, 1, 1, "b"⟩] : List Device).length →
        r < ([⟨3, 0, 1, 1, "a"⟩, ⟨3, 0, 1, 1, "b"⟩] : List Device).length) ∧
      ∀ j (hj : j < ([⟨3, 0, 1, 1, "a"⟩, ⟨3, 0, 1, 1, "b"⟩] : List Device).length)
        (hr : r < ([⟨3, 0, 1, 1, "a"⟩, ⟨3, 0, 1, 1, "b"⟩] : List Device).length),
        j < r →
        elig (bestSMArch [⟨3, 0, 1, 1, "a"⟩, ⟨3, 0, 1, 1, "b"⟩])
          (([⟨3, 0, 1, 1, "a"⟩, ⟨3, 0, 1, 1, "b"⟩] : List Device).get ⟨j, hj⟩) →
        computePerf (([⟨3, 0, 1, 1, "a"⟩, ⟨3, 0, 1, 1, "b"⟩] : List Device).get ⟨j, hj⟩) <
          computePerf (([⟨3, 0, 1, 1, "a"⟩, ⟨3, 0, 1, 1, "b"⟩] : List Device).get ⟨r, hr⟩) :=
  maxGflops_range_ties ⟨[⟨3, 0, 1, 1, "a"⟩, ⟨3, 0, 1, 1, "b"⟩], 0, 0, 0⟩ rfl

end MatMul
